import Mathlib

/-!
Verification of the adaptive iteration controller of `src/main.py`
(`InteractiveCSVAnalyzer`). Python strings are modelled as lists of
characters (`PyStr`) and the string methods the controller uses
(`strip`, `lower`, `split`, `replace`, `startswith`, `in`, slicing) are
given explicit executable models. Every embedded definition is a direct
transcription of the corresponding Python routine; remote effects (the
OpenAI call and the e2b sandbox execution) are passed in as explicit
outcome values, since the controller only branches on their results.
-/

/-- A Python `str`, modelled as its list of characters. -/
abbrev PyStr := List Char

/-- The characters Python's default `str.strip` / `str.split()` treat as
whitespace (ASCII subset, which is all the controller ever handles). -/
def pyIsSpace (c : Char) : Bool :=
  c == ' ' || c == '\t' || c == '\n' || c == '\r' || c == '\x0b' || c == '\x0c'

/-- Python `s.startswith(pat)`: `startsWithStr pat s`. -/
def startsWithStr : PyStr → PyStr → Bool
  | [], _ => true
  | _ :: _, [] => false
  | p :: ps, c :: cs => p == c && startsWithStr ps cs

/-- Python `pat in s` (contiguous substring test): `containsSub s pat`. -/
def containsSub : PyStr → PyStr → Bool
  | [], pat => startsWithStr pat []
  | c :: rest, pat => startsWithStr pat (c :: rest) || containsSub rest pat

/-- Python `s.lower()` (ASCII). -/
def toLowerStr (s : PyStr) : PyStr := s.map Char.toLower

/-- Python `s.strip()`: drop leading then trailing whitespace. -/
def stripStr (s : PyStr) : PyStr :=
  ((s.dropWhile pyIsSpace).reverse.dropWhile pyIsSpace).reverse

/-- Python `s.split('\n')`: split at every newline, keeping empty pieces
(`''.split('\n') == ['']`). -/
def splitNl : PyStr → List PyStr
  | [] => [[]]
  | c :: rest =>
    if c = '\n' then [] :: splitNl rest
    else
      match splitNl rest with
      | [] => [[c]]
      | l :: ls => (c :: l) :: ls

/-- `'\n'.join`, the inverse of `splitNl` on newline-free pieces. -/
def joinNl : List PyStr → PyStr
  | [] => []
  | [l] => l
  | l :: ls => l ++ '\n' :: joinNl ls

/-- Concatenation of lines each followed by `'\n'` (how `_parse_ai_response`
accumulates the code block: `code += line + '\n'`). -/
def concatNl : List PyStr → PyStr
  | [] => []
  | l :: ls => l ++ '\n' :: concatNl ls

/-- Python `s[a:b]` for `0 ≤ a ≤ b`. -/
def sliceStr (a b : Nat) (s : PyStr) : PyStr := (s.take b).drop a

/-- Python `s[-n:]`: the last `n` characters (the whole string when shorter). -/
def pyTakeLast (n : Nat) (s : PyStr) : PyStr := s.drop (s.length - n)

/-- Helper for `pyFind`: index of the first occurrence of `pat`, counting
from `i`. -/
def findSubAux (pat : PyStr) : PyStr → Nat → Option Nat
  | [], i => if startsWithStr pat [] then some i else none
  | c :: rest, i =>
    if startsWithStr pat (c :: rest) then some i else findSubAux pat rest (i + 1)

/-- Python `s.find(pat)`, with `-1` rendered as `none`. -/
def pyFind (s pat : PyStr) : Option Nat := findSubAux pat s 0

/-- Python `s.find(pat, start)`. -/
def pyFindFrom (s pat : PyStr) (start : Nat) : Option Nat :=
  (findSubAux pat (s.drop start) 0).map (· + start)

theorem startsWithStr_length_le :
    ∀ (p s : PyStr), startsWithStr p s = true → p.length ≤ s.length := by
  intro p
  induction p with
  | nil => intro s _; simp
  | cons a ps ih =>
    intro s h
    cases s with
    | nil => simp [startsWithStr] at h
    | cons c cs =>
      simp only [startsWithStr, Bool.and_eq_true] at h
      simpa using Nat.succ_le_succ (ih cs h.2)

/-- Worker for `replaceAll`: replace every occurrence of the non-empty
pattern, scanning left to right and not rescanning the replacement
(Python `str.replace` semantics). -/
def replaceAllGo (pat repl : PyStr) (hp : 0 < pat.length) (s : PyStr) : PyStr :=
  if h : startsWithStr pat s = true then
    repl ++ replaceAllGo pat repl hp (s.drop pat.length)
  else
    match s with
    | [] => []
    | c :: cs => c :: replaceAllGo pat repl hp cs
termination_by s.length
decreasing_by
  · have hle := startsWithStr_length_le pat s h
    have hs : 0 < s.length := Nat.lt_of_lt_of_le hp hle
    simp only [List.length_drop]
    omega
  · simp

/-- Python `s.replace(pat, repl)`; the controller only ever calls it with a
non-empty pattern, and on an empty pattern we return `s` unchanged. -/
def replaceAll (pat repl s : PyStr) : PyStr :=
  if hp : 0 < pat.length then replaceAllGo pat repl hp s else s

/-- Helper for Python `s.split()` (no separator): accumulated reversed word. -/
def pyWordsAux : PyStr → PyStr → List PyStr
  | [], acc => if acc.isEmpty then [] else [acc.reverse]
  | c :: rest, acc =>
    if pyIsSpace c then
      if acc.isEmpty then pyWordsAux rest [] else acc.reverse :: pyWordsAux rest []
    else pyWordsAux rest (c :: acc)

/-- Python `s.split()`: split on runs of whitespace, no empty words. -/
def pyWords (s : PyStr) : List PyStr := pyWordsAux s []

/-- Python `', '.join(l)`. -/
def joinCommaSp : List PyStr → PyStr
  | [] => []
  | [x] => x
  | x :: xs => x ++ (", ").toList ++ joinCommaSp xs

/-- Python `str(n)` for a natural number. -/
def natStr (n : Nat) : PyStr := (toString n).toList

/-- The analysis-topic vocabulary of `_track_analysis_topics` (`topic_mapping`
keys, main.py lines 884-893). -/
inductive Topic where
  | data_exploration
  | correlations
  | distributions
  | visualization
  | patterns
  | statistics
  | target_analysis
  | feature_analysis
deriving DecidableEq

/-- The topic's label string. -/
def topicName : Topic → PyStr
  | .data_exploration => ("data_exploration").toList
  | .correlations => ("correlations").toList
  | .distributions => ("distributions").toList
  | .visualization => ("visualization").toList
  | .patterns => ("patterns").toList
  | .statistics => ("statistics").toList
  | .target_analysis => ("target_analysis").toList
  | .feature_analysis => ("feature_analysis").toList

/-- `topic_mapping` of `_track_analysis_topics`: topic → keyword list. -/
def topicKeywords : Topic → List PyStr
  | .data_exploration =>
    [("shape").toList, ("structure").toList, ("overview").toList, ("basic").toList,
     ("exploration").toList]
  | .correlations =>
    [("correlation").toList, ("relationship").toList, ("association").toList]
  | .distributions =>
    [("distribution").toList, ("histogram").toList, ("spread").toList, ("density").toList]
  | .visualization =>
    [("plot").toList, ("chart").toList, ("graph").toList, ("visualiz").toList]
  | .patterns =>
    [("pattern").toList, ("trend").toList, ("outlier").toList, ("anomal").toList]
  | .statistics =>
    [("statistical").toList, ("summary").toList, ("mean").toList, ("median").toList,
     ("std").toList]
  | .target_analysis =>
    [("target").toList, ("prediction").toList, ("classification").toList]
  | .feature_analysis =>
    [("feature").toList, ("variable").toList, ("column").toList]

/-- Iteration order of `topic_mapping.items()` (Python dicts preserve
insertion order). -/
def topicOrder : List Topic :=
  [.data_exploration, .correlations, .distributions, .visualization, .patterns,
   .statistics, .target_analysis, .feature_analysis]

/-- `_track_analysis_topics` (main.py 879-897): lower-case the explanation and
add every topic one of whose keywords occurs in it. The Python `set` of
covered topics is modelled as a duplicate-free list in insertion order. -/
def track_analysis_topics (explanation : PyStr) (topics_covered : List Topic) : List Topic :=
  let explanationLower := toLowerStr explanation
  topicOrder.foldl
    (fun acc t =>
      if (topicKeywords t).any (fun k => containsSub explanationLower k) then
        if acc.contains t then acc else acc ++ [t]
      else acc)
    topics_covered

/-- Python `len(set(topics))` for the list model of a topic set. -/
def pySetCard (topics : List Topic) : Nat := topics.dedup.length

/-- One entry of `self.session_history` as appended by `execute_code`
(main.py 343-349). The wall-clock `timestamp` field is not modelled. -/
structure IterationRecord where
  code : PyStr
  logs : PyStr
  success : Bool
  results_count : Nat
deriving DecidableEq

/-- Outcome of one `sandbox.run_code` call: either the execution object
(with its logs, optional error, and result count) or a raised exception. -/
inductive ExecOutcome where
  | completed (logs : PyStr) (error : Option PyStr) (results : Nat)
  | raised (msg : PyStr)
deriving DecidableEq

/-- `execute_code` (main.py 322-355): returns `(success, logs-or-error)` and
the updated `session_history`. A history record is appended only on the
success path (after the `execution.error` early return), with `success`
hardcoded `True`; the error and exception paths return without appending. -/
def execute_code (code : PyStr) (outcome : ExecOutcome)
    (history : List IterationRecord) : Bool × PyStr × List IterationRecord :=
  match outcome with
  | .raised msg => (false, msg, history)
  | .completed _ (some err) _ => (false, err, history)
  | .completed logs none results =>
    (true, logs,
      history ++ [{ code := code, logs := logs, success := true, results_count := results }])

/-- `len(set(a.split()) & set(b.split()))`: distinct shared words. -/
def sharedWordCount (a b : PyStr) : Nat :=
  (((pyWords a).dedup).filter (fun w => (pyWords b).contains w)).length

/-- The `code_similarities` list of `_detect_repetitive_analysis`: for each
record, how many later records share more than 10 words with it. -/
def similarCounts : List PyStr → List Nat
  | [] => []
  | c :: rest => (rest.countP (fun o => 10 < sharedWordCount c o)) :: similarCounts rest

/-- `_detect_repetitive_analysis` (main.py 899-919): needs at least 4 history
records, then compares only the last 3 records pairwise on lower-cased
whitespace tokens, and fires iff some record has ≥ 2 similar counterparts. -/
def detect_repetitive_analysis (history : List IterationRecord) : Bool :=
  if history.length < 4 then false
  else
    let recent := history.drop (history.length - 3)
    let sims := similarCounts (recent.map (fun r => toLowerStr r.code))
    decide (2 ≤ sims.foldr max 0)

/-- The `completion_signals` list of `_check_analysis_completion`
(main.py 841-845). -/
def completionSignals : List PyStr :=
  [("analysis is complete").toList, ("comprehensive analysis").toList,
   ("analysis complete").toList, ("sufficient insights").toList,
   ("thorough analysis").toList, ("complete understanding").toList,
   ("analysis finished").toList, ("all aspects covered").toList,
   ("comprehensive coverage").toList]

/-- The decision dict returned by `_check_analysis_completion`. -/
structure CompletionDecision where
  should_stop : Bool
  reason : PyStr
deriving DecidableEq

/-- A single-quote character (for the f-string reasons). -/
def apostropheStr : PyStr := [Char.ofNat 39]

/-- Reason for an explicit completion signal:
`f"AI indicated completion with signal: '{signal}'"`. -/
def signalReason (signal : PyStr) : PyStr :=
  ("AI indicated completion with signal: ").toList ++ apostropheStr ++ signal ++ apostropheStr

/-- The `core_topics` set of `_check_analysis_completion` (main.py 861). -/
def coreTopicsList : List Topic :=
  [.data_exploration, .correlations, .distributions, .visualization, .patterns]

/-- `len(core_topics.intersection(topics_covered))`. -/
def coveredCoreCount (topics_covered : List Topic) : Nat :=
  (coreTopicsList.filter (fun t => topics_covered.contains t)).length

/-- Reason for the coverage stop:
`f"Comprehensive coverage achieved: {n} core topics covered"`. -/
def coverageReason (n : Nat) : PyStr :=
  ("Comprehensive coverage achieved: ").toList ++ natStr n ++ (" core topics covered").toList

/-- `_check_analysis_completion` (main.py 839-877), evaluated in source
order: explicit signal, minimum-iteration phase, core-topic coverage,
repetition, default continue. -/
def check_analysis_completion (ai_response : PyStr) (iteration min_iterations : Nat)
    (topics_covered : List Topic) (history : List IterationRecord) : CompletionDecision :=
  let responseLower := toLowerStr ai_response
  match completionSignals.find? (fun s => containsSub responseLower s) with
  | some signal => ⟨true, signalReason signal⟩
  | none =>
    if iteration < min_iterations then
      ⟨false, ("Still in minimum iteration phase").toList⟩
    else if 4 ≤ coveredCoreCount topics_covered ∧ 5 ≤ iteration then
      ⟨true, coverageReason (coveredCoreCount topics_covered)⟩
    else if 8 < iteration ∧ detect_repetitive_analysis history = true then
      ⟨true, ("Analysis becoming repetitive - comprehensive insights achieved").toList⟩
    else
      ⟨false, ("Analysis should continue").toList⟩

/-- `'EXPLANATION:'`. -/
def explanationMarker : PyStr := ("EXPLANATION:").toList

/-- `'CODE:'`. -/
def codeMarker : PyStr := ("CODE:").toList

/-- The language-tagged opening fence. -/
def fencePython : PyStr := ("```python").toList

/-- The closing fence. -/
def fenceClose : PyStr := ("```").toList

/-- The code-likeness keywords of parse method 3 (main.py 780). -/
def codeKeywords : List PyStr :=
  [("import ").toList, ("df.").toList, ("plt.").toList, ("print(").toList, ("pandas").toList]

/-- The line loop of parse method 1 (main.py 745-760): state is
`(in_code_block, explanation, code)`; returns `(explanation, code.strip())`. -/
def parseStructuredGo : List PyStr → Bool → PyStr → PyStr → PyStr × PyStr
  | [], _, explanation, code => (explanation, stripStr code)
  | line :: rest, in_code_block, explanation, code =>
    if startsWithStr explanationMarker line = true then
      parseStructuredGo rest in_code_block
        (stripStr (replaceAll explanationMarker [] line)) code
    else if startsWithStr codeMarker line = true then
      parseStructuredGo rest in_code_block explanation code
    else if startsWithStr fencePython (stripStr line) = true then
      parseStructuredGo rest true explanation code
    else if stripStr line = fenceClose ∧ in_code_block = true then
      parseStructuredGo rest false explanation code
    else if in_code_block then
      parseStructuredGo rest in_code_block explanation (code ++ line ++ ['\n'])
    else
      parseStructuredGo rest in_code_block explanation code

/-- `_parse_ai_response` (main.py 737-803). A total function: the Python
`try` body only performs string operations, so the `except` fallback is
dead and parsing never signals failure. Method 1 (labeled format), method 2
(bare fenced block), method 3 (code-likeness heuristic), method 4
(everything is explanation), in that order. -/
def parse_ai_response (response : PyStr) : PyStr × PyStr :=
  if containsSub response explanationMarker = true then
    parseStructuredGo (splitNl (stripStr response)) false [] []
  else if containsSub response fencePython = true then
    match pyFind response fencePython with
    | none => ([], [])
    | some code_start =>
      let explanation :=
        if 0 < code_start then
          stripStr (replaceAll explanationMarker [] (stripStr (response.take code_start)))
        else []
      let code :=
        match pyFindFrom response fenceClose (code_start + 9) with
        | some code_end => stripStr (sliceStr (code_start + 9) code_end response)
        | none => []
      (explanation, code)
  else if codeKeywords.any (fun k => containsSub response k) then
    ([], stripStr response)
  else
    (stripStr response, [])

/-- Behaviour of the probe execution `sandbox.run_code("print(...)")` inside
`_check_sandbox_health`: it either completes (with an optional error field)
or raises with a message. -/
inductive ProbeBehavior where
  | completes (error : Option PyStr)
  | raises (msg : PyStr)
deriving DecidableEq

/-- `"sandbox was not found"`. -/
def sandboxNotFoundStr : PyStr := ("sandbox was not found").toList

/-- `"timeout"`. -/
def timeoutStr : PyStr := ("timeout").toList

/-- `_check_sandbox_health` (main.py 805-816): `False` with no sandbox;
on completion, healthy iff `execution.error is None`; on an exception,
`False` iff the message contains `"sandbox was not found"` (checked on the
raw text, case-sensitively) or contains `"timeout"` after lower-casing;
every other exception is treated as healthy. -/
def check_sandbox_health (sandbox : Option ProbeBehavior) : Bool :=
  match sandbox with
  | none => false
  | some (.completes error) => error.isNone
  | some (.raises msg) =>
    if containsSub msg sandboxNotFoundStr || containsSub (toLowerStr msg) timeoutStr then
      false
    else
      true

/-- `_handle_execution_error` (main.py 958-980): classify the lower-cased
error text; `true` means recoverable (the loop proceeds). -/
def handle_execution_error (error_logs : PyStr) : Bool :=
  let e := toLowerStr error_logs
  if containsSub e sandboxNotFoundStr || containsSub e timeoutStr then true
  else if containsSub e (("import").toList) || containsSub e (("module").toList) then true
  else if containsSub e (("file not found").toList) || containsSub e (("no such file").toList) then
    true
  else false

/-- `_update_context` (main.py 615-620): append `'\n' + new_info`, then trim
to the last 1500 characters once the buffer exceeds 2000. -/
def update_context (analysis_context new_info : PyStr) : PyStr :=
  let c := analysis_context ++ '\n' :: new_info
  if 2000 < c.length then pyTakeLast 1500 c else c

/-- The `all_topics` set of `_generate_intelligent_prompt` (main.py 925):
seven topics, without `feature_analysis`. -/
def allTopicsList : List Topic :=
  [.data_exploration, .correlations, .distributions, .visualization, .patterns,
   .statistics, .target_analysis]

/-- `{str(logs)[:400] if logs else 'No output'}`. -/
def renderLogsSegment (logs : PyStr) : PyStr :=
  if logs.isEmpty then ("No output").toList else logs.take 400

/-- `{self.analysis_context[-800:] if self.analysis_context else 'Starting analysis'}`. -/
def renderContextSegment (analysis_context : PyStr) : PyStr :=
  if analysis_context.isEmpty then ("Starting analysis").toList
  else pyTakeLast 800 analysis_context

/-- `{', '.join(topics_covered) if topics_covered else 'None yet'}`. -/
def renderCoveredSegment (topics_covered : List Topic) : PyStr :=
  if topics_covered.isEmpty then ("None yet").toList
  else joinCommaSp (topics_covered.map topicName)

/-- `{', '.join(remaining_topics) if remaining_topics else 'All major areas covered'}`. -/
def renderRemainingSegment (remaining_topics : List Topic) : PyStr :=
  if remaining_topics.isEmpty then ("All major areas covered").toList
  else joinCommaSp (remaining_topics.map topicName)

/-- The fixed tail of the prompt template (main.py 941-955). -/
def promptTail : PyStr :=
  ("\n\nINTELLIGENT NEXT STEP:\nBased on the coverage status, please choose the MOST VALUABLE next analysis step.\nPriority order:\n1. If data_exploration not covered: Basic data overview and structure\n2. If correlations not covered: Feature relationships and target correlations  \n3. If distributions not covered: Feature distributions and patterns\n4. If visualization not covered: Key visualizations for insights\n5. If patterns not covered: Advanced pattern detection and outliers\n\nIMPORTANT: \n- Choose ONE focused analysis that adds NEW insights\n- Avoid repeating previous analyses\n- If all major topics covered, provide final summary or conclude\n- Generate executable Python code for your chosen analysis\n").toList

/-- `_generate_intelligent_prompt` (main.py 921-956): render the template,
interpolating the upcoming step number, the first 400 characters of the
last output, the last 800 characters of the context, the covered topics
and the complement of the covered topics in `all_topics`. -/
def generate_intelligent_prompt (iteration : Nat) (logs : PyStr)
    (topics_covered : List Topic) (analysis_context : PyStr) : PyStr :=
  let remaining_topics := allTopicsList.filter (fun t => !(topics_covered.contains t))
  ("\nINTELLIGENT ANALYSIS CONTINUATION - Step ").toList ++
    (natStr (iteration + 1) ++
      (("\n\nPREVIOUS STEP RESULTS:\n").toList ++
        (renderLogsSegment logs ++
          (("\n\nANALYSIS CONTEXT:\n").toList ++
            (renderContextSegment analysis_context ++
              (("\n\nCOVERAGE STATUS:\n✅ Completed topics: ").toList ++
                (renderCoveredSegment topics_covered ++
                  (("\n📋 Remaining areas: ").toList ++
                    (renderRemainingSegment remaining_topics ++ promptTail)))))))))

/-- What `_print_completion_summary` (main.py 982-996) reports, as data:
its printed counts and the qualitative verdict string. -/
structure CompletionSummary where
  total_steps : Nat
  topics_count : Nat
  visualizations : Nat
  sandbox_resets : Nat
  quality : PyStr
deriving DecidableEq

/-- `_print_completion_summary`: the verdict is
`'Comprehensive' if len(topics_covered) >= 4 else 'Partial'` — the size of
the whole covered set, not of its core-topic part. -/
def print_completion_summary (iteration : Nat) (topics_covered : List Topic)
    (sandbox_resets : Nat) (history : List IterationRecord) : CompletionSummary :=
  { total_steps := iteration
    topics_count := pySetCard topics_covered
    visualizations := (history.filter (fun h => 0 < h.results_count)).length
    sandbox_resets := sandbox_resets
    quality :=
      if 4 ≤ pySetCard topics_covered then ("Comprehensive").toList else ("Partial").toList }

/-- `"ANALYSIS_COMPLETE"`. -/
def analysisCompleteSentinel : PyStr := ("ANALYSIS_COMPLETE").toList

/-- `chat_with_ai` (main.py 149-224), reduced to its result handling: the
model's message content (or `none` when the request raised) is stripped,
and any response containing the sentinel collapses to the literal
`"ANALYSIS_COMPLETE"`. -/
def chat_with_ai (model_content : Option PyStr) : Option PyStr :=
  match model_content with
  | none => none
  | some content =>
    let code := stripStr content
    if containsSub code analysisCompleteSentinel = true then some analysisCompleteSentinel
    else some code

/-- The environment of one loop step: how the health probe behaves, whether
`_reinitialize_sandbox` would succeed, what the model returns, and how the
sandbox executes the step's code. -/
structure StepEnv where
  probe : Option ProbeBehavior
  reinit_ok : Bool
  ai_content : Option PyStr
  exec_outcome : ExecOutcome

/-- Why `execute_with_automation` left its `while` loop. -/
inductive StopReason where
  | ceiling
  | health_failure
  | ai_failures
  | exec_failures
  | completed (reason : PyStr)
deriving DecidableEq

/-- The loop state of `execute_with_automation` (main.py 234-238 plus the
analyzer fields it mutates). -/
structure RunState where
  iteration : Nat
  consecutive_failures : Nat
  sandbox_reset_count : Nat
  analysis_topics_covered : List Topic
  history : List IterationRecord
  analysis_context : PyStr
  current_prompt : PyStr

/-- What the run ends with: the data `_print_completion_summary` receives
plus the distinguishable stop reason. -/
structure RunResult where
  iterations : Nat
  topics : List Topic
  resets : Nat
  history : List IterationRecord
  reason : StopReason

/-- The retry prompt of main.py 287. -/
def pleaseProvidePrompt : PyStr :=
  ("Please provide executable Python code for the next analysis step.").toList

/-- The `while iteration < max_iterations` loop of `execute_with_automation`
(main.py 240-315), with `fuel = max_iterations - iteration`. Each step:
increment, health check (recover or abort), model call (empty or missing
response counts as a failure, three consecutive abort; success resets
`consecutive_failures` to 0), completion check, parse, topic tracking,
no-code retry, execution with error classification (an unrecoverable
failure increments the just-reset counter and aborts at ≥ 2), context
update and next-prompt synthesis. -/
def execute_with_automation_go (env : Nat → StepEnv) (max_iterations min_iterations : Nat) :
    Nat → RunState → RunResult
  | 0, s => ⟨s.iteration, s.analysis_topics_covered, s.sandbox_reset_count, s.history, .ceiling⟩
  | fuel + 1, s =>
    let iteration := s.iteration + 1
    let e := env iteration
    let healthy := check_sandbox_health e.probe
    if !healthy && !e.reinit_ok then
      ⟨iteration, s.analysis_topics_covered, s.sandbox_reset_count, s.history, .health_failure⟩
    else
      let resets := if healthy then s.sandbox_reset_count else s.sandbox_reset_count + 1
      match chat_with_ai e.ai_content with
      | none =>
        let cf := s.consecutive_failures + 1
        if 3 ≤ cf then ⟨iteration, s.analysis_topics_covered, resets, s.history, .ai_failures⟩
        else
          execute_with_automation_go env max_iterations min_iterations fuel
            { s with iteration := iteration, consecutive_failures := cf,
                     sandbox_reset_count := resets }
      | some ai_response =>
        if ai_response.isEmpty then
          let cf := s.consecutive_failures + 1
          if 3 ≤ cf then ⟨iteration, s.analysis_topics_covered, resets, s.history, .ai_failures⟩
          else
            execute_with_automation_go env max_iterations min_iterations fuel
              { s with iteration := iteration, consecutive_failures := cf,
                       sandbox_reset_count := resets }
        else
          let completion := check_analysis_completion ai_response iteration min_iterations
            s.analysis_topics_covered s.history
          if completion.should_stop then
            ⟨iteration, s.analysis_topics_covered, resets, s.history,
              .completed completion.reason⟩
          else
            let parsed := parse_ai_response ai_response
            let explanation := parsed.1
            let code := parsed.2
            let topics :=
              if explanation.isEmpty then s.analysis_topics_covered
              else track_analysis_topics explanation s.analysis_topics_covered
            if code.isEmpty then
              execute_with_automation_go env max_iterations min_iterations fuel
                { iteration := iteration, consecutive_failures := 0,
                  sandbox_reset_count := resets, analysis_topics_covered := topics,
                  history := s.history, analysis_context := s.analysis_context,
                  current_prompt := pleaseProvidePrompt }
            else
              let er := execute_code code e.exec_outcome s.history
              let success := er.1
              let logs := er.2.1
              let history := er.2.2
              -- `consecutive_failures` was reset to 0 on the successful model
              -- call above; on an unrecoverable failure it becomes 0 + 1.
              let cfExec :=
                if success || handle_execution_error logs then 0 else 0 + 1
              if (!success && !(handle_execution_error logs)) && decide (2 ≤ cfExec) then
                ⟨iteration, topics, resets, history, .exec_failures⟩
              else
                let result_summary :=
                  if logs.isEmpty then ("No output").toList else logs.take 500
                let context := update_context s.analysis_context
                  (("Step ").toList ++ natStr iteration ++ (": ").toList ++ result_summary)
                let prompt := generate_intelligent_prompt iteration logs topics context
                execute_with_automation_go env max_iterations min_iterations fuel
                  { iteration := iteration, consecutive_failures := cfExec,
                    sandbox_reset_count := resets, analysis_topics_covered := topics,
                    history := history, analysis_context := context,
                    current_prompt := prompt }

/-- `execute_with_automation` on a fresh analyzer (empty topic set, history
and context), run to its iteration ceiling. -/
def execute_with_automation (env : Nat → StepEnv) (initial_prompt : PyStr)
    (max_iterations min_iterations : Nat) : RunResult :=
  execute_with_automation_go env max_iterations min_iterations max_iterations
    { iteration := 0, consecutive_failures := 0, sandbox_reset_count := 0,
      analysis_topics_covered := [], history := [], analysis_context := [],
      current_prompt := initial_prompt }

/-- The canonical labeled response format the system prompt requests
(main.py 159-166): the explanation on the marker line, a blank line, the
`CODE:` header, and one language-tagged fenced block. -/
def mkLabeledResponse (expl : PyStr) (codeLines : List PyStr) : PyStr :=
  joinNl ([explanationMarker ++ ' ' :: expl, [], codeMarker, fencePython] ++
    codeLines ++ [fenceClose])

/-- A run environment in which the sandbox is healthy, every model call
succeeds with a pure-code response, and every execution fails with an
error `_handle_execution_error` classifies as unrecoverable. -/
def c1Env : Nat → StepEnv := fun _ =>
  { probe := some (.completes none), reinit_ok := true,
    ai_content := some (("import pandas").toList),
    exec_outcome := .completed [] (some (("ValueError: invalid operation").toList)) 0 }

/-- Step-1 record of the repetition scenario. -/
def c6r1 : IterationRecord := ⟨("df.corr()").toList, [], true, 0⟩

/-- Step-2 record of the repetition scenario. -/
def c6r2 : IterationRecord := ⟨("df.corr() plot").toList, [], true, 0⟩

/-- Step-3 record of the repetition scenario. -/
def c6r3 : IterationRecord := ⟨("df.describe()").toList, [], true, 0⟩

/-- The 4th synthetic step of the repetition scenario. -/
def c6r4 : IterationRecord := ⟨("df.head()").toList, [], true, 0⟩

/-- The scenario history: three recorded steps plus a 4th synthetic one. -/
def c6History : List IterationRecord := [c6r1, c6r2, c6r3, c6r4]

/-- A topic set with 4 covered topics of which only one is a core topic. -/
def c7Topics : List Topic := [.statistics, .target_analysis, .feature_analysis, .correlations]

/-- An output longer than 400 characters whose distinctive content sits at
its end. -/
def c8Logs : PyStr := List.replicate 400 'a' ++ ("ENDMARKER").toList

/-- A re-capitalization of the sandbox-loss phrase. -/
def c9Msg : PyStr := ("Sandbox Was Not Found").toList

/-- A 4-core-topic covered set for the coverage-stop witness. -/
def c3Topics : List Topic := [.data_exploration, .correlations, .distributions, .visualization]

/-- Concrete explanation for the labeled-format witness. -/
def c5Expl : PyStr := ("Inspect the dataset shape to plan the next step.").toList

/-- Concrete code lines for the labeled-format witness. -/
def c5Code : List PyStr :=
  [("import pandas as pd").toList, ("print(pd.read_csv(data_path).shape)").toList]

/-! ## General string lemmas -/

theorem startsWithStr_append_self (p s : PyStr) : startsWithStr p (p ++ s) = true := by
  induction p with
  | nil => rfl
  | cons a ps ih => simp [startsWithStr, ih]

theorem containsSub_of_startsWith {s pat : PyStr} (h : startsWithStr pat s = true) :
    containsSub s pat = true := by
  cases s with
  | nil => simpa [containsSub] using h
  | cons c cs => simp [containsSub, h]

theorem containsSub_append_left (x : PyStr) {s pat : PyStr} (h : containsSub s pat = true) :
    containsSub (x ++ s) pat = true := by
  induction x with
  | nil => simpa using h
  | cons c xs ih => simp [containsSub, ih]

/-! ## Claim theorems (C1, C2, C3, C4, C6, C7, C9, C10) -/

/-- C1: the claim says two consecutive unrecoverable execution failures stop
the run. They do not: in a run whose model calls all succeed and whose
executions all fail unrecoverably, every successful model call resets
`consecutive_failures` to 0 before the execution-failure branch can raise it
past 1, so the `>= 2` break is unreachable; the loop runs a third step (and
on to the iteration ceiling) instead of aborting at the second failure, and
the failed executions leave no history record. -/
theorem c1_consecutive_exec_failures_do_not_abort :
    (execute_with_automation c1Env [] 3 3).iterations = 3 ∧
    (execute_with_automation c1Env [] 3 3).reason = .ceiling ∧
    (execute_with_automation c1Env [] 3 3).history = [] := by decide

/-- C2: below `min_iterations` the completion oracle returns continue for
every topic set unless the response contains a completion phrase; and the
scenario response containing "analysis is complete" stops at iteration 2
with `min_iterations = 3`, because the phrase check precedes the
minimum-iteration check. -/
theorem c2_oracle_min_iterations_unless_signal
    (text : PyStr) (iteration min_iterations : Nat) (topics : List Topic)
    (history : List IterationRecord)
    (hsig : ∀ s ∈ completionSignals, containsSub (toLowerStr text) s = false)
    (hit : iteration < min_iterations) :
    (check_analysis_completion text iteration min_iterations topics history).should_stop
      = false ∧
    (check_analysis_completion (("The analysis is complete and comprehensive").toList)
      2 3 [] []).should_stop = true := by
  constructor
  · have hfind : completionSignals.find? (fun s => containsSub (toLowerStr text) s) = none := by
      rw [List.find?_eq_none]
      intro x hx
      simp [hsig x hx]
    simp [check_analysis_completion, hfind, hit]
  · decide

/-- Witness for C2 at concrete inputs. -/
theorem c2_oracle_min_iterations_witness :
    (check_analysis_completion (("Next we will explore the data further.").toList)
      1 3 [] []).should_stop = false ∧
    (check_analysis_completion (("The analysis is complete and comprehensive").toList)
      2 3 [] []).should_stop = true :=
  c2_oracle_min_iterations_unless_signal (("Next we will explore the data further.").toList)
    1 3 [] [] (by decide) (by decide)

/-- C3: with no completion phrase, iteration at least `min_iterations` and at
least 5, and at least 4 of the 5 core topics covered, the oracle stops with
a reason stating the covered-core-topic count. -/
theorem c3_oracle_core_coverage_stop
    (text : PyStr) (iteration min_iterations : Nat) (topics : List Topic)
    (history : List IterationRecord)
    (hsig : ∀ s ∈ completionSignals, containsSub (toLowerStr text) s = false)
    (hmin : min_iterations ≤ iteration) (h5 : 5 ≤ iteration)
    (hcov : 4 ≤ coveredCoreCount topics) :
    check_analysis_completion text iteration min_iterations topics history
      = ⟨true, coverageReason (coveredCoreCount topics)⟩ := by
  have hfind : completionSignals.find? (fun s => containsSub (toLowerStr text) s) = none := by
    rw [List.find?_eq_none]
    intro x hx
    simp [hsig x hx]
  simp [check_analysis_completion, hfind, Nat.not_lt.mpr hmin, hcov, h5]

/-- Witness for C3 at concrete inputs. -/
theorem c3_oracle_core_coverage_witness :
    check_analysis_completion (("Now we study the outliers in detail.").toList) 5 3 c3Topics []
      = ⟨true, coverageReason (coveredCoreCount c3Topics)⟩ :=
  c3_oracle_core_coverage_stop (("Now we study the outliers in detail.").toList)
    5 3 c3Topics [] (by decide) (by decide) (by decide) (by decide)

/-- C4 counterexample: an execution that ran and failed (the sandbox
reported an error) appends nothing to the history, refuting "appended
exactly once for every step that actually executed code, whether the
execution succeeded or failed". -/
theorem c4_history_counterexample :
    execute_code (("df.corr()").toList)
      (.completed [] (some (("NameError: df is not defined").toList)) 0) []
      = (false, ("NameError: df is not defined").toList, []) := rfl

/-- C4 as amended: a history record is appended exactly once per successful
execution and never on a failed one; prior records are untouched and the
appended record always carries `success = true`. -/
theorem c4_history_append_on_success_only
    (code : PyStr) (outcome : ExecOutcome) (history : List IterationRecord) :
    (execute_code code outcome history).2.2.length
        = history.length + (if (execute_code code outcome history).1 then 1 else 0) ∧
    (execute_code code outcome history).2.2.take history.length = history ∧
    ((execute_code code outcome history).2.2.drop history.length).all
        (fun r => r.success) = true := by
  cases outcome with
  | raised msg => simp [execute_code]
  | completed logs error results =>
    cases error with
    | some err => simp [execute_code]
    | none =>
      refine ⟨by simp [execute_code], ?_, ?_⟩
      · simp only [execute_code]
        exact List.take_left _ _
      · simp only [execute_code]
        rw [List.drop_left]
        simp

/-- C6 counterexample: on the scenario history the detector returns false,
and the premise is also wrong about the fixed strings: step 1 and step 2
share exactly one whitespace token, not more than ten. -/
theorem c6_repetition_counterexample :
    detect_repetitive_analysis c6History = false ∧
    sharedWordCount (toLowerStr c6r1.code) (toLowerStr c6r2.code) = 1 := by decide

/-- C6 as amended: the detector inspects only the last three records, so on
the scenario history (steps 2, 3 and the synthetic step 4) every pairwise
shared-token count is below the threshold and the detector returns false. -/
theorem c6_repetition_window_returns_false :
    detect_repetitive_analysis c6History = false ∧
    c6History.drop (c6History.length - 3) = [c6r2, c6r3, c6r4] ∧
    similarCounts ((c6History.drop (c6History.length - 3)).map (fun r => toLowerStr r.code))
      = [0, 0, 0] := by decide

/-- C7 counterexample: a covered set of four non-core-heavy topics (only one
core topic among them) is still rated "Comprehensive", refuting the claimed
"comprehensive iff at least 4 of the 5 core topics". -/
theorem c7_quality_counterexample :
    (print_completion_summary 6 c7Topics 0 []).quality = ("Comprehensive").toList ∧
    coveredCoreCount c7Topics = 1 := by decide

/-- C7 as amended: the verdict is "Comprehensive" precisely when the total
number of distinct covered topics is at least 4 (core or not), and
"Partial" otherwise. -/
theorem c7_quality_total_topic_count (iteration : Nat) (topics : List Topic)
    (resets : Nat) (history : List IterationRecord) :
    (4 ≤ pySetCard topics ∧
      (print_completion_summary iteration topics resets history).quality
        = ("Comprehensive").toList) ∨
    (pySetCard topics < 4 ∧
      (print_completion_summary iteration topics resets history).quality
        = ("Partial").toList) := by
  by_cases h : 4 ≤ pySetCard topics
  · exact Or.inl ⟨h, by simp [print_completion_summary, h]⟩
  · exact Or.inr ⟨by omega, by simp [print_completion_summary, h]⟩

/-- C9 counterexample: a re-capitalization of the session-loss phrase — its
lower-casing contains "sandbox was not found" — makes the probe return
true, refuting "any capitalization of these phrases yields false": that
phrase is matched case-sensitively (only "timeout" is lower-cased). -/
theorem c9_health_counterexample :
    check_sandbox_health (some (.raises c9Msg)) = true ∧
    containsSub (toLowerStr c9Msg) sandboxNotFoundStr = true := by decide

/-- C9 as amended: the probe returns false when the execution reports an
explicit error, when the exception text contains "sandbox was not found"
exactly (case-sensitive), or when it contains "timeout" case-insensitively;
every other exception yields true. -/
theorem c9_health_characterization (msg : PyStr) (err : Option PyStr) :
    (containsSub msg sandboxNotFoundStr = true →
      check_sandbox_health (some (.raises msg)) = false) ∧
    (containsSub (toLowerStr msg) timeoutStr = true →
      check_sandbox_health (some (.raises msg)) = false) ∧
    (containsSub msg sandboxNotFoundStr = false →
      containsSub (toLowerStr msg) timeoutStr = false →
      check_sandbox_health (some (.raises msg)) = true) ∧
    check_sandbox_health (some (.completes err)) = err.isNone ∧
    check_sandbox_health none = false := by
  refine ⟨fun h => by simp [check_sandbox_health, h],
    fun h => by simp [check_sandbox_health, h],
    fun h1 h2 => by simp [check_sandbox_health, h1, h2], rfl, rfl⟩

/-- C10: a response containing the sentinel collapses to the literal
"ANALYSIS_COMPLETE"; its lower-casing "analysis_complete" matches none of
the space-separated completion phrases; and below the coverage/repetition
iteration thresholds the completion check on the collapsed response returns
continue for every topic set and history, so the loop does not stop on the
sentinel. -/
theorem c10_sentinel_does_not_stop :
    (∀ raw : PyStr, containsSub (stripStr raw) analysisCompleteSentinel = true →
      chat_with_ai (some raw) = some analysisCompleteSentinel) ∧
    completionSignals.all
      (fun s => !containsSub (toLowerStr analysisCompleteSentinel) s) = true ∧
    (∀ (iteration min_iterations : Nat) (topics : List Topic)
      (history : List IterationRecord), iteration < 5 →
      (check_analysis_completion analysisCompleteSentinel iteration min_iterations topics
        history).should_stop = false) := by
  refine ⟨fun raw h => by simp [chat_with_ai, h], by decide, ?_⟩
  intro iteration min_iterations topics history h5
  have hfind : completionSignals.find?
      (fun s => containsSub (toLowerStr analysisCompleteSentinel) s) = none := by decide
  by_cases hmin : iteration < min_iterations
  · simp [check_analysis_completion, hfind, hmin]
  · have h1 : ¬ (4 ≤ coveredCoreCount topics ∧ 5 ≤ iteration) := fun hc => by omega
    have h2 : ¬ (8 < iteration ∧ detect_repetitive_analysis history = true) :=
      fun hc => by omega
    simp [check_analysis_completion, hfind, hmin, h1, h2]

set_option maxRecDepth 40000 in
/-- C8 counterexample: the prompt embeds `str(logs)[:400]` — the FIRST 400
characters of the last output — so for an output whose distinctive content
is at its end, the truncated tail (the last 400 characters) claimed by the
spec does not occur in the prompt at all. -/
theorem c8_prompt_counterexample :
    containsSub (generate_intelligent_prompt 3 c8Logs [] []) (pyTakeLast 400 c8Logs)
      = false := by decide

/-- C8 as amended: for every iteration, output, topic set and context, the
synthesized prompt deterministically contains the upcoming step number, the
first 400 characters of the last output (a truncated head, not a tail), the
last 800 characters of the accumulated context, the covered-topic list, and
the complement of the covered topics in the fixed seven-topic set as the
remaining topics. -/
theorem c8_prompt_contains_fields (iteration : Nat) (logs : PyStr)
    (topics : List Topic) (analysis_context : PyStr) :
    containsSub (generate_intelligent_prompt iteration logs topics analysis_context)
      (natStr (iteration + 1)) = true ∧
    containsSub (generate_intelligent_prompt iteration logs topics analysis_context)
      (renderLogsSegment logs) = true ∧
    containsSub (generate_intelligent_prompt iteration logs topics analysis_context)
      (renderContextSegment analysis_context) = true ∧
    containsSub (generate_intelligent_prompt iteration logs topics analysis_context)
      (renderCoveredSegment topics) = true ∧
    containsSub (generate_intelligent_prompt iteration logs topics analysis_context)
      (renderRemainingSegment (allTopicsList.filter (fun t => !(topics.contains t))))
      = true := by
  refine ⟨?_, ?_, ?_, ?_, ?_⟩ <;> simp only [generate_intelligent_prompt]
  · exact containsSub_append_left _
      (containsSub_of_startsWith (startsWithStr_append_self _ _))
  · exact containsSub_append_left _ (containsSub_append_left _ (containsSub_append_left _
      (containsSub_of_startsWith (startsWithStr_append_self _ _))))
  · exact containsSub_append_left _ (containsSub_append_left _ (containsSub_append_left _
      (containsSub_append_left _ (containsSub_append_left _
        (containsSub_of_startsWith (startsWithStr_append_self _ _))))))
  · exact containsSub_append_left _ (containsSub_append_left _ (containsSub_append_left _
      (containsSub_append_left _ (containsSub_append_left _ (containsSub_append_left _
        (containsSub_append_left _
          (containsSub_of_startsWith (startsWithStr_append_self _ _))))))))
  · exact containsSub_append_left _ (containsSub_append_left _ (containsSub_append_left _
      (containsSub_append_left _ (containsSub_append_left _ (containsSub_append_left _
        (containsSub_append_left _ (containsSub_append_left _ (containsSub_append_left _
          (containsSub_of_startsWith (startsWithStr_append_self _ _))))))))))

/-! ## Lemmas supporting the labeled-format parse theorem (C5) -/

theorem explanationMarker_eq :
    explanationMarker = ['E', 'X', 'P', 'L', 'A', 'N', 'A', 'T', 'I', 'O', 'N', ':'] := by
  decide

theorem replaceAllGo_no_occurrence (pat repl : PyStr) (hp : 0 < pat.length) :
    ∀ s : PyStr, containsSub s pat = false → replaceAllGo pat repl hp s = s := by
  intro s
  induction s with
  | nil =>
    intro h
    simp only [containsSub] at h
    rw [replaceAllGo]
    simp [h]
  | cons c cs ih =>
    intro h
    simp only [containsSub, Bool.or_eq_false_iff] at h
    rw [replaceAllGo]
    simp [h.1, ih h.2]

theorem replaceAll_prefix_no_tail_occurrence (pat repl rest : PyStr) (hp : 0 < pat.length)
    (h : containsSub rest pat = false) :
    replaceAll pat repl (pat ++ rest) = repl ++ rest := by
  rw [replaceAll, dif_pos hp, replaceAllGo, dif_pos (startsWithStr_append_self pat rest)]
  rw [List.drop_left]
  rw [replaceAllGo_no_occurrence pat repl hp rest h]

theorem startsWith_marker_space (l : PyStr) :
    startsWithStr explanationMarker (' ' :: l) = false := by
  rw [explanationMarker_eq]
  simp only [startsWithStr]
  rw [show (('E' : Char) == ' ') = false from by decide]
  simp

theorem replaceAll_marker_space (expl : PyStr)
    (h : containsSub expl explanationMarker = false) :
    replaceAll explanationMarker [] (explanationMarker ++ ' ' :: expl) = ' ' :: expl := by
  have hsp : containsSub (' ' :: expl) explanationMarker = false := by
    simp only [containsSub, Bool.or_eq_false_iff]
    exact ⟨startsWith_marker_space expl, h⟩
  simpa using replaceAll_prefix_no_tail_occurrence explanationMarker [] (' ' :: expl)
    (by decide) hsp

theorem stripStr_space_cons (l : PyStr) : stripStr (' ' :: l) = stripStr l := by
  unfold stripStr
  rw [List.dropWhile_cons]
  simp [show pyIsSpace ' ' = true from by decide]

theorem dropWhile_append_pystr (p : Char → Bool) (l₁ l₂ : PyStr) :
    (l₁ ++ l₂).dropWhile p
      = if (l₁.dropWhile p).isEmpty then l₂.dropWhile p else l₁.dropWhile p ++ l₂ := by
  induction l₁ with
  | nil => simp
  | cons c cs ih =>
    by_cases h : p c = true
    · simp [List.dropWhile_cons, h, ih]
    · simp [List.dropWhile_cons, h]

theorem stripStr_append_newline (l : PyStr) : stripStr (l ++ ['\n']) = stripStr l := by
  have hnl : pyIsSpace '\n' = true := by decide
  unfold stripStr
  rw [dropWhile_append_pystr]
  by_cases h : (l.dropWhile pyIsSpace).isEmpty
  · have h' : l.dropWhile pyIsSpace = [] := by simpa [List.isEmpty_iff] using h
    simp [h, h', List.dropWhile_cons, hnl]
  · rw [if_neg h]
    rw [List.reverse_append]
    simp [List.dropWhile_cons, hnl]

theorem joinNl_cons₂ (a b : PyStr) (t : List PyStr) :
    joinNl (a :: b :: t) = a ++ '\n' :: joinNl (b :: t) := rfl

theorem splitNl_no_newline : ∀ l : PyStr, '\n' ∉ l → splitNl l = [l] := by
  intro l
  induction l with
  | nil => intro _; rfl
  | cons c cs ih =>
    intro h
    simp only [List.mem_cons, not_or] at h
    have hc : ¬ (c = '\n') := fun hh => h.1 hh.symm
    simp only [splitNl, if_neg hc, ih h.2]

theorem splitNl_append_newline : ∀ l rest : PyStr, '\n' ∉ l →
    splitNl (l ++ '\n' :: rest) = l :: splitNl rest := by
  intro l rest
  induction l with
  | nil => intro _; simp [splitNl]
  | cons c cs ih =>
    intro h
    simp only [List.mem_cons, not_or] at h
    have hc : ¬ (c = '\n') := fun hh => h.1 hh.symm
    rw [List.cons_append]
    simp only [splitNl, if_neg hc, ih h.2]

theorem splitNl_joinNl : ∀ lines : List PyStr, lines ≠ [] →
    (∀ l ∈ lines, '\n' ∉ l) → splitNl (joinNl lines) = lines := by
  intro lines
  induction lines with
  | nil => intro h _; exact absurd rfl h
  | cons x xs ih =>
    intro _ hnl
    cases xs with
    | nil =>
      simp only [joinNl]
      exact splitNl_no_newline x (hnl x (by simp))
    | cons y ys =>
      rw [joinNl_cons₂, splitNl_append_newline x _ (hnl x (by simp))]
      rw [ih (by simp) (fun l hl => hnl l (List.mem_cons_of_mem x hl))]

theorem joinNl_append_single : ∀ (ls : List PyStr) (l : PyStr), ls ≠ [] →
    joinNl (ls ++ [l]) = joinNl ls ++ '\n' :: l := by
  intro ls
  induction ls with
  | nil => intro l h; exact absurd rfl h
  | cons x xs ih =>
    intro l _
    cases xs with
    | nil => rfl
    | cons y ys =>
      show x ++ '\n' :: joinNl ((y :: ys) ++ [l]) = (x ++ '\n' :: joinNl (y :: ys)) ++ '\n' :: l
      rw [ih l (by simp)]
      simp [List.append_assoc]

theorem concatNl_eq : ∀ ls : List PyStr, ls ≠ [] → concatNl ls = joinNl ls ++ ['\n'] := by
  intro ls
  induction ls with
  | nil => intro h; exact absurd rfl h
  | cons x xs ih =>
    intro _
    cases xs with
    | nil => rfl
    | cons y ys =>
      show x ++ '\n' :: concatNl (y :: ys) = (x ++ '\n' :: joinNl (y :: ys)) ++ ['\n']
      rw [ih (by simp)]
      simp [List.append_assoc]

theorem stripStr_eq_self_of_heads (s : PyStr) (c1 c2 : Char) (t1 t2 : PyStr)
    (h1 : s = c1 :: t1) (h2 : s.reverse = c2 :: t2)
    (hc1 : pyIsSpace c1 = false) (hc2 : pyIsSpace c2 = false) : stripStr s = s := by
  have e1 : List.dropWhile pyIsSpace s = s := by
    rw [h1]
    simp [List.dropWhile_cons, hc1]
  have e2 : List.dropWhile pyIsSpace s.reverse = s.reverse := by
    rw [h2]
    simp [List.dropWhile_cons, hc2]
  unfold stripStr
  rw [e1, e2, List.reverse_reverse]

theorem pSG_empty_line (r : List PyStr) (e c : PyStr) :
    parseStructuredGo ([] :: r) false e c = parseStructuredGo r false e c := by
  simp only [parseStructuredGo]
  rw [if_neg (by decide), if_neg (by decide), if_neg (by decide), if_neg (by decide),
    if_neg (by decide)]

theorem pSG_code_marker_line (r : List PyStr) (e c : PyStr) :
    parseStructuredGo (codeMarker :: r) false e c = parseStructuredGo r false e c := by
  simp only [parseStructuredGo]
  rw [if_neg (by decide), if_pos (by decide)]

theorem pSG_fence_open_line (r : List PyStr) (e c : PyStr) :
    parseStructuredGo (fencePython :: r) false e c = parseStructuredGo r true e c := by
  simp only [parseStructuredGo]
  rw [if_neg (by decide), if_neg (by decide), if_pos (by decide)]

theorem pSG_fence_close_line (r : List PyStr) (e c : PyStr) :
    parseStructuredGo (fenceClose :: r) true e c = parseStructuredGo r false e c := by
  simp only [parseStructuredGo]
  rw [if_neg (by decide), if_neg (by decide), if_neg (by decide), if_pos (by decide)]

theorem pSG_marker_line (expl : PyStr) (r : List PyStr) (e c : PyStr) :
    parseStructuredGo ((explanationMarker ++ ' ' :: expl) :: r) false e c
      = parseStructuredGo r false
          (stripStr (replaceAll explanationMarker [] (explanationMarker ++ ' ' :: expl)))
          c := by
  simp only [parseStructuredGo]
  rw [if_pos (startsWithStr_append_self explanationMarker (' ' :: expl))]

theorem pSG_code_lines : ∀ ls : List PyStr,
    (∀ l ∈ ls, startsWithStr explanationMarker l = false ∧
      startsWithStr codeMarker l = false ∧
      startsWithStr fencePython (stripStr l) = false ∧ stripStr l ≠ fenceClose) →
    ∀ (rest : List PyStr) (e c : PyStr),
    parseStructuredGo (ls ++ rest) true e c
      = parseStructuredGo rest true e (c ++ concatNl ls) := by
  intro ls
  induction ls with
  | nil => intro _ rest e c; simp [concatNl]
  | cons l ls ih =>
    intro h rest e c
    have hl := h l (by simp)
    rw [List.cons_append]
    simp only [parseStructuredGo]
    rw [if_neg (by simp [hl.1]), if_neg (by simp [hl.2.1]), if_neg (by simp [hl.2.2.1]),
      if_neg (fun hc => hl.2.2.2 hc.1), if_pos trivial]
    rw [ih (fun x hx => h x (List.mem_cons_of_mem l hx)) rest e (c ++ l ++ ['\n'])]
    simp [concatNl, List.append_assoc]

/-- C5: every raw model response in the canonical labeled format — the
explanation on the `EXPLANATION:` line, a `CODE:` header, and one
```python fenced block whose lines are ordinary code lines (no newline, no
marker prefix, no fence) — is parsed to exactly that explanation and
exactly that code, byte for byte up to surrounding whitespace; parsing is a
total function, so it never raises. -/
theorem c5_parse_labeled_format (expl : PyStr) (codeLines : List PyStr)
    (hexnl : '\n' ∉ expl)
    (hexm : containsSub expl explanationMarker = false)
    (hcl : ∀ l ∈ codeLines, '\n' ∉ l ∧
      startsWithStr explanationMarker l = false ∧ startsWithStr codeMarker l = false ∧
      startsWithStr fencePython (stripStr l) = false ∧ stripStr l ≠ fenceClose) :
    parse_ai_response (mkLabeledResponse expl codeLines)
      = (stripStr expl, stripStr (joinNl codeLines)) := by
  have hL1nl : '\n' ∉ explanationMarker ++ ' ' :: expl := by
    simp only [List.mem_append, List.mem_cons, not_or]
    exact ⟨by decide, by decide, hexnl⟩
  have hnl_all : ∀ l ∈ ([explanationMarker ++ ' ' :: expl, [], codeMarker, fencePython] ++
      codeLines ++ [fenceClose]), '\n' ∉ l := by
    intro l hl
    rw [List.mem_append, List.mem_append] at hl
    rcases hl with (h4 | hmem) | hsingle
    · simp only [List.mem_cons, List.not_mem_nil, or_false] at h4
      rcases h4 with rfl | rfl | rfl | rfl
      · exact hL1nl
      · simp
      · decide
      · decide
    · exact (hcl l hmem).1
    · have hfc : l = fenceClose := by simpa using hsingle
      subst hfc
      decide
  have hJ : joinNl ([explanationMarker ++ ' ' :: expl, [], codeMarker, fencePython] ++
        codeLines ++ [fenceClose])
      = (explanationMarker ++ ' ' :: expl) ++
        '\n' :: joinNl (([] : PyStr) :: codeMarker :: fencePython ::
          (codeLines ++ [fenceClose])) :=
    joinNl_cons₂ _ _ _
  have hguard : containsSub (joinNl ([explanationMarker ++ ' ' :: expl, [], codeMarker,
      fencePython] ++ codeLines ++ [fenceClose])) explanationMarker = true := by
    rw [hJ, List.append_assoc]
    exact containsSub_of_startsWith (startsWithStr_append_self _ _)
  have hhead : joinNl ([explanationMarker ++ ' ' :: expl, [], codeMarker, fencePython] ++
        codeLines ++ [fenceClose])
      = 'E' :: (['X', 'P', 'L', 'A', 'N', 'A', 'T', 'I', 'O', 'N', ':'] ++
          ((' ' :: expl) ++ '\n' :: joinNl (([] : PyStr) :: codeMarker :: fencePython ::
            (codeLines ++ [fenceClose])))) := by
    rw [hJ, List.append_assoc, explanationMarker_eq]
    rfl
  have hfront_ne : ([explanationMarker ++ ' ' :: expl, [], codeMarker, fencePython] ++
      codeLines) ≠ [] := by simp
  have hJtail : joinNl ([explanationMarker ++ ' ' :: expl, [], codeMarker, fencePython] ++
        codeLines ++ [fenceClose])
      = joinNl ([explanationMarker ++ ' ' :: expl, [], codeMarker, fencePython] ++
          codeLines) ++ '\n' :: fenceClose :=
    joinNl_append_single _ fenceClose hfront_ne
  have hrev : (joinNl ([explanationMarker ++ ' ' :: expl, [], codeMarker, fencePython] ++
        codeLines ++ [fenceClose])).reverse
      = '`' :: ('`' :: '`' :: '\n' ::
          (joinNl ([explanationMarker ++ ' ' :: expl, [], codeMarker, fencePython] ++
            codeLines)).reverse) := by
    rw [hJtail, List.reverse_append]
    rw [show ('\n' :: fenceClose).reverse = ['`', '`', '`', '\n'] from by decide]
    rfl
  have hstrip_resp : stripStr (joinNl ([explanationMarker ++ ' ' :: expl, [], codeMarker,
        fencePython] ++ codeLines ++ [fenceClose]))
      = joinNl ([explanationMarker ++ ' ' :: expl, [], codeMarker, fencePython] ++
          codeLines ++ [fenceClose]) :=
    stripStr_eq_self_of_heads _ 'E' '`' _ _ hhead hrev (by decide) (by decide)
  show parse_ai_response (joinNl ([explanationMarker ++ ' ' :: expl, [], codeMarker,
    fencePython] ++ codeLines ++ [fenceClose])) = _
  simp only [parse_ai_response]
  rw [if_pos hguard, hstrip_resp,
    splitNl_joinNl _ (by simp) hnl_all]
  show parseStructuredGo ((explanationMarker ++ ' ' :: expl) :: ([] : PyStr) :: codeMarker ::
    fencePython :: (codeLines ++ [fenceClose])) false [] [] = _
  rw [pSG_marker_line, pSG_empty_line, pSG_code_marker_line, pSG_fence_open_line]
  rw [pSG_code_lines codeLines (fun l hl => (hcl l hl).2) [fenceClose] _ []]
  rw [List.nil_append, pSG_fence_close_line]
  show (_, stripStr (concatNl codeLines)) = _
  rw [replaceAll_marker_space expl hexm, stripStr_space_cons]
  cases codeLines with
  | nil => rfl
  | cons x xs =>
    rw [concatNl_eq (x :: xs) (by simp), stripStr_append_newline]

/-- Witness for C5 at a concrete labeled response. -/
theorem c5_parse_labeled_witness :
    parse_ai_response (mkLabeledResponse c5Expl c5Code)
      = (stripStr c5Expl, stripStr (joinNl c5Code)) :=
  c5_parse_labeled_format c5Expl c5Code (by decide) (by decide) (by decide)
